import Mathlib

/-!  Verification development for the document-processing pipeline of the
Telegram-Knowledge-Bot repository.  The data model, the retry wrapper, the
summarizer, the keyword extractor, the plain-text parsing strategy, the
orchestrator and the persistence-row construction are embedded from the
Python sources (src/models/enums.py, src/models/results.py,
src/models/metadata.py, src/models/storage.py, src/models/config.py,
src/utils/retry_handler.py, src/ai/base.py, src/ai/openai_summarizer.py,
src/ai/keyword_extractor.py, src/parsers/txt_parser.py, src/processor.py).
External capabilities (the OpenAI chat endpoint, the yake scorer, the file
system) are modelled as oracles supplied as explicit arguments. -/

/-- Closed error taxonomy, from class ErrorScenario in src/models/enums.py. -/
inductive ErrorScenario
  | FILE_TOO_LARGE
  | UNSUPPORTED_FORMAT
  | CORRUPTED_FILE
  | PASSWORD_PROTECTED
  | EMPTY_DOCUMENT
  | OCR_FAILED
  | API_RATE_LIMIT
  | API_TIMEOUT
  | API_ERROR
  | SHEETS_AUTH_ERROR
  | SHEETS_WRITE_ERROR
  | URL_INVALID
  deriving DecidableEq, Repr

/-- Processing status, from class ProcessingStatus in src/models/enums.py. -/
inductive ProcessingStatus
  | PENDING
  | PROCESSING
  | COMPLETED
  | FAILED
  deriving DecidableEq, Repr

/-- Extraction technique, from class ExtractionMethod in src/models/enums.py. -/
inductive ExtractionMethod
  | PYPDF2
  | PDFPLUMBER
  | PYTHON_DOCX
  | PLAIN_READ
  | TESSERACT_OCR
  | GOOGLE_VISION_OCR
  deriving DecidableEq, Repr

/-- Generation model tag, from class AIModel in src/models/enums.py. -/
inductive AIModel
  | OPENAI_GPT4
  | OPENAI_GPT35
  | YANDEX_GPT
  | CLAUDE_3
  | CLAUDE_2
  deriving DecidableEq, Repr

/-- Supported file formats, from class FileType in src/models/enums.py. -/
inductive FileType
  | PDF
  | DOCX
  | TXT
  | MD
  deriving DecidableEq, Repr

/-- String value of a FileType, mirroring the Python enum values. -/
def fileTypeValue : FileType → String
  | FileType.PDF => "pdf"
  | FileType.DOCX => "docx"
  | FileType.TXT => "txt"
  | FileType.MD => "md"

/-- String value of a ProcessingStatus, mirroring the Python enum values. -/
def statusValue : ProcessingStatus → String
  | ProcessingStatus.PENDING => "pending"
  | ProcessingStatus.PROCESSING => "processing"
  | ProcessingStatus.COMPLETED => "completed"
  | ProcessingStatus.FAILED => "failed"

/-- String value of an AIModel, mirroring the Python enum values. -/
def aiModelValue : AIModel → String
  | AIModel.OPENAI_GPT4 => "openai_gpt4"
  | AIModel.OPENAI_GPT35 => "openai_gpt35"
  | AIModel.YANDEX_GPT => "yandex_gpt"
  | AIModel.CLAUDE_3 => "claude_3"
  | AIModel.CLAUDE_2 => "claude_2"

/-- String value of an ExtractionMethod, mirroring the Python enum values. -/
def extractionMethodValue : ExtractionMethod → String
  | ExtractionMethod.PYPDF2 => "pypdf2"
  | ExtractionMethod.PDFPLUMBER => "pdfplumber"
  | ExtractionMethod.PYTHON_DOCX => "python_docx"
  | ExtractionMethod.PLAIN_READ => "plain_read"
  | ExtractionMethod.TESSERACT_OCR => "tesseract_ocr"
  | ExtractionMethod.GOOGLE_VISION_OCR => "google_vision_ocr"

/-- Upload metadata, from dataclass Metadata in src/models/metadata.py.  The
datetime timestamp is kept as its ISO-8601 rendering, an opaque string. -/
structure Metadata where
  file_name : String
  file_size : Nat
  file_type : FileType
  uploader_id : Nat
  timestamp : String
  uploader_username : Option String := none
  language : Option String := none
  source_url : Option String := none
  telegram_file_id : Option String := none
  deriving DecidableEq, Repr

/-- Extraction outcome, from dataclass ParseResult in src/models/results.py. -/
structure ParseResult where
  text : String
  char_count : Nat
  success : Bool
  extraction_method : ExtractionMethod
  error_message : Option String := none
  error_scenario : Option ErrorScenario := none
  used_ocr : Bool := false
  ocr_confidence : Option ℚ := none
  deriving DecidableEq, Repr

/-- Summarization outcome, from dataclass SummaryResult in
src/models/results.py. -/
structure SummaryResult where
  summary : String
  sentence_count : Nat
  language : String
  success : Bool
  ai_model_used : AIModel
  tokens_used : Option Nat := none
  error_message : Option String := none
  error_scenario : Option ErrorScenario := none
  deriving DecidableEq, Repr

/-- Keyword-extraction outcome, from dataclass KeywordsResult in
src/models/results.py. -/
structure KeywordsResult where
  keywords : List String
  formatted : String
  count : Nat
  success : Bool
  extraction_method : String
  error_message : Option String := none
  error_scenario : Option ErrorScenario := none
  deriving DecidableEq, Repr

/-- Aggregate outcome, from dataclass ProcessingResult in
src/models/results.py. -/
structure ProcessingResult where
  metadata : Metadata
  parse_result : ParseResult
  summary_result : SummaryResult
  keywords_result : KeywordsResult
  status : ProcessingStatus
  processing_time : ℚ
  error_scenario : Option ErrorScenario := none
  deriving DecidableEq, Repr

/-- Flat persistence row, from dataclass GoogleSheetsRow in
src/models/storage.py. -/
structure GoogleSheetsRow where
  timestamp : String
  uploader_id : String
  uploader_username : String
  file_name : String
  file_type : String
  file_size : Nat
  char_count : Nat
  language : String
  summary : String
  keywords : String
  status : String
  error_message : String
  ai_model_used : String
  extraction_method : String
  ocr_used : Bool
  processing_time : ℚ
  deriving DecidableEq, Repr

/-- Retry configuration, from dataclass RetryConfig in src/models/config.py.
Delays are rationals standing for the Python floats. -/
structure RetryConfig where
  max_retries : Nat := 3
  base_delay : ℚ := 1
  max_delay : ℚ := 30
  exponential_base : ℚ := 2
  jitter : Bool := true
  deriving DecidableEq, Repr

/-- Python's two-argument min builtin: the first argument wins ties. -/
def qmin (a b : ℚ) : ℚ := if a ≤ b then a else b

/-- Backoff delay, from RetryConfig.get_delay in src/models/config.py.  The
uniform random sample 0.5 + random() drawn when jitter is on is passed in as
the explicit jitterFactor argument. -/
def RetryConfig.get_delay (c : RetryConfig) (attempt : Nat) (jitterFactor : ℚ) : ℚ :=
  let delay := qmin (c.base_delay * c.exponential_base ^ attempt) c.max_delay
  if c.jitter then delay * jitterFactor else delay

deriving instance DecidableEq for Except

/-- Observable outcome of one run of the retry wrapper: the returned value or
re-raised error, the number of calls made to the wrapped operation, and the
sequence of backoff delays slept between attempts. -/
structure RetryOutcome (E A : Type) where
  result : Except E A
  calls : Nat
  delays : List ℚ
  deriving DecidableEq, Repr

/-- Loop body of RetryHandler.execute_with_retry in
src/utils/retry_handler.py.  The wrapped operation is an oracle mapping the
zero-based attempt index to its outcome; jf maps the attempt index to the
jitter sample used for the sleep after that attempt.  The second argument r
is the number of retries still allowed, i.e. max_retries - attempt, so r = 0
exactly when attempt < max_retries fails and the error is re-raised. -/
def retryGo {E A : Type} (c : RetryConfig) (jf : Nat → ℚ) (op : Nat → Except E A) :
    Nat → Nat → RetryOutcome E A
  | attempt, 0 =>
    match op attempt with
    | Except.ok v => ⟨Except.ok v, attempt + 1, []⟩
    | Except.error e => ⟨Except.error e, attempt + 1, []⟩
  | attempt, r + 1 =>
    match op attempt with
    | Except.ok v => ⟨Except.ok v, attempt + 1, []⟩
    | Except.error _ =>
      let rest := retryGo c jf op (attempt + 1) r
      ⟨rest.result, rest.calls, c.get_delay attempt (jf attempt) :: rest.delays⟩

/-- RetryHandler.execute_with_retry in src/utils/retry_handler.py: attempts
the operation up to max_retries + 1 times, sleeping get_delay(attempt)
between attempts, and re-raises the last error once attempts are
exhausted. -/
def execute_with_retry {E A : Type} (c : RetryConfig) (jf : Nat → ℚ)
    (op : Nat → Except E A) : RetryOutcome E A :=
  retryGo c jf op 0 c.max_retries

/-- An operation that fails on its first numFailures calls (raising errs i on
the zero-based call i) and succeeds with v from then on; the shape of every
retry scenario of the spec. -/
def mkFailingOp {E A : Type} (numFailures : Nat) (errs : Nat → E) (v : A) :
    Nat → Except E A :=
  fun i => if i < numFailures then Except.error (errs i) else Except.ok v

/-- Characters stripped by Python str.strip / collapsed by str.split, for the
ASCII texts this development evaluates. -/
def trimChars (cs : List Char) : List Char :=
  ((cs.dropWhile Char.isWhitespace).reverse.dropWhile Char.isWhitespace).reverse

/-- Python str.strip on a string. -/
def trimStr (s : String) : String := String.mk (trimChars s.data)

/-- Python str.lower, for the ASCII error messages this development
classifies. -/
def toLowerStr (s : String) : String := String.mk (s.data.map Char.toLower)

/-- Python str.split() with no argument: split on whitespace runs, dropping
empty pieces; the accumulator holds the current word reversed. -/
def splitWsAux : List Char → List Char → List (List Char)
  | [], acc => if acc.isEmpty then [] else [acc.reverse]
  | c :: rest, acc =>
    if c.isWhitespace then
      if acc.isEmpty then splitWsAux rest []
      else acc.reverse :: splitWsAux rest []
    else splitWsAux rest (c :: acc)

/-- Python sep.join(pieces). -/
def joinWith (sep : String) : List String → String
  | [] => ""
  | [s] => s
  | s :: rest => s ++ sep ++ joinWith sep rest

/-- Python's "pat in s" substring test, one starting position at a time. -/
def containsSubAux (pat : List Char) : List Char → Bool
  | [] => pat.isEmpty
  | c :: rest => pat.isPrefixOf (c :: rest) || containsSubAux pat rest

/-- Python's "pat in s" substring test on strings. -/
def strContainsSub (s pat : String) : Bool := containsSubAux pat.data s.data

/-- Sentence-terminal punctuation of the regex [.!?] in
AISummarizer._count_sentences (src/ai/base.py). -/
def isTermChar (c : Char) : Bool := c == '.' || c == '!' || c == '?'

/-- Whether the character last consumed into the current segment is
sentence-terminal: the lookbehind of the split regex. -/
def headIsTerm : List Char → Bool
  | [] => false
  | p :: _ => isTermChar p

/-- One left-to-right pass implementing re.split of the pattern
(?<=[.!?])\s+ : acc holds the current segment reversed, and the Boolean says
whether the scanner stands inside the whitespace run just split on. -/
def sentAux : List Char → List Char → Bool → List String
  | [], acc, _ => [String.mk acc.reverse]
  | c :: rest, acc, skipping =>
    if skipping then
      if c.isWhitespace then sentAux rest acc true
      else sentAux rest [c] false
    else if c.isWhitespace && headIsTerm acc then
      String.mk acc.reverse :: sentAux rest [] true
    else sentAux rest (c :: acc) false

/-- AISummarizer._count_sentences (src/ai/base.py): strip the text, split on
whitespace runs preceded by sentence-terminal punctuation, and count the
non-blank segments; empty or all-whitespace input counts zero. -/
def countSentences (text : String) : Nat :=
  if trimStr text = "" then 0
  else ((sentAux (trimStr text).data [] false).filter (fun s => trimStr s ≠ "")).length

/-- Sentence-count bounds MIN_SENTENCES and MAX_SENTENCES of class
OpenAISummarizer (src/ai/openai_summarizer.py). -/
def MIN_SENTENCES : Nat := 3

/-- Upper sentence-count bound MAX_SENTENCES of class OpenAISummarizer. -/
def MAX_SENTENCES : Nat := 7

/-- Minimum text length MIN_TEXT_FOR_SUMMARY of class OpenAISummarizer. -/
def MIN_TEXT_FOR_SUMMARY : Nat := 100

/-- OpenAISummarizer._get_ai_model: the gpt-4 tag when the configured model
name contains "gpt-4", else the gpt-3.5 tag. -/
def getAiModel (model : String) : AIModel :=
  if strContainsSub model "gpt-4" then AIModel.OPENAI_GPT4 else AIModel.OPENAI_GPT35

/-- AISummarizer._build_prompt (src/ai/base.py): the locale-appropriate
instruction prompt requesting 3 to 7 sentences. -/
def buildPrompt (text language : String) : String :=
  let lang_instruction := if language == "ru" then "на русском языке" else "in English"
  "Создай краткое резюме следующего текста " ++ lang_instruction ++ ".\n" ++
    "Резюме должно содержать от 3 до 7 предложений.\n" ++
    "Резюме должно точно отражать основные темы и ключевые моменты документа.\n\n" ++
    "Текст:\n" ++ text ++ "\n\nРезюме:"

/-- The corrective prompt built by OpenAISummarizer._adjust_summary
(src/ai/openai_summarizer.py): demands exactly MIN_SENTENCES sentences when
the current count is below the minimum, else exactly MAX_SENTENCES. -/
def adjustPrompt (text language : String) (current_count : Nat) : String :=
  (if current_count < MIN_SENTENCES then
      "Создай резюме ровно из " ++ toString MIN_SENTENCES ++ " предложений"
    else
      "Создай резюме ровно из " ++ toString MAX_SENTENCES ++ " предложений") ++
    (" " ++ (if language == "ru" then "на русском языке" else "in English") ++ ".\n" ++
      "Резюме должно точно отражать основные темы и ключевые моменты документа.\n\n" ++
      "Текст:\n" ++ text ++ "\n\nРезюме:")

/-- OpenAISummarizer._classify_error: inspect the lowered exception message
for the rate-limit and timeout substrings, else a generic API error. -/
def classifyError (msg : String) : ErrorScenario :=
  let s := toLowerStr msg
  if strContainsSub s "rate limit" || strContainsSub s "rate_limit" then
    ErrorScenario.API_RATE_LIMIT
  else if strContainsSub s "timeout" then ErrorScenario.API_TIMEOUT
  else ErrorScenario.API_ERROR

/-- The external generation capability behind
OpenAISummarizer._call_api_with_tokens: the zero-based index of the call made
by one summarize invocation is mapped to the raised exception message, or to
the stripped reply content together with the total_tokens usage. -/
def GenOracle : Type := Nat → Except String (String × Nat)

/-- Observable outcome of one OpenAISummarizer.summarize invocation: the
returned SummaryResult, the prompts sent to the generation capability in
order, and how many capability calls were made. -/
structure SummarizeTrace where
  result : SummaryResult
  prompts : List String
  api_calls : Nat
  deriving DecidableEq, Repr

/-- OpenAISummarizer.summarize (src/ai/openai_summarizer.py): below the
minimum length the original text is echoed with success and no capability
call; otherwise one generation call is made, and when its sentence count
falls outside [MIN_SENTENCES, MAX_SENTENCES] exactly one corrective call
follows, whose recomputed count is returned; token usage accumulates across
the two calls; a raised exception yields a failure result carrying the
classified scenario. -/
def summarize (model : String) (gen : GenOracle) (text language : String) :
    SummarizeTrace :=
  if text.length < MIN_TEXT_FOR_SUMMARY then
    ⟨⟨text, countSentences text, language, true, getAiModel model, some 0, none, none⟩,
      [], 0⟩
  else
    let p1 := buildPrompt text language
    match gen 0 with
    | Except.error e =>
      ⟨⟨"", 0, language, false, getAiModel model, none, some e, some (classifyError e)⟩,
        [p1], 1⟩
    | Except.ok (s1, t1) =>
      let sc := countSentences s1
      if sc < MIN_SENTENCES ∨ sc > MAX_SENTENCES then
        let p2 := adjustPrompt text language sc
        match gen 1 with
        | Except.error e =>
          ⟨⟨"", 0, language, false, getAiModel model, none, some e,
              some (classifyError e)⟩,
            [p1, p2], 2⟩
        | Except.ok (s2, t2) =>
          ⟨⟨s2, countSentences s2, language, true, getAiModel model,
              some (t1 + t2), none, none⟩,
            [p1, p2], 2⟩
      else
        ⟨⟨s1, sc, language, true, getAiModel model, some t1, none, none⟩, [p1], 1⟩

/-- Keyword-count bounds MIN_KEYWORDS of class KeywordExtractor
(src/ai/keyword_extractor.py). -/
def MIN_KEYWORDS : Nat := 5

/-- Upper keyword-count bound MAX_KEYWORDS of class KeywordExtractor. -/
def MAX_KEYWORDS : Nat := 10

/-- The external yake scorer behind KeywordExtractor._extract_with_yake: the
pair (max_ngram_size, top) of the yake.KeywordExtractor construction is
mapped to the candidate phrases it returns, scores already stripped. -/
def YakeOracle : Type := Nat → Nat → List String

/-- The loop body of KeywordExtractor._clean_keywords: collapse internal
whitespace, drop phrases shorter than 2 characters, dedup case-insensitively
(a phrase marks the seen set even when it is then dropped for having no
alphabetic character), and require at least one alphabetic character. -/
def cleanKeywordsAux : List String → List String → List String
  | [], _ => []
  | kw0 :: rest, seen =>
    let kw := joinWith " " ((splitWsAux kw0.data []).map String.mk)
    if kw.length < 2 then cleanKeywordsAux rest seen
    else
      let kw_lower := toLowerStr kw
      if seen.contains kw_lower then cleanKeywordsAux rest seen
      else if kw.data.any Char.isAlpha then kw :: cleanKeywordsAux rest (kw_lower :: seen)
      else cleanKeywordsAux rest (kw_lower :: seen)

/-- KeywordExtractor._clean_keywords (src/ai/keyword_extractor.py). -/
def cleanKeywords (keywords : List String) : List String :=
  cleanKeywordsAux keywords []

/-- KeywordExtractor._extract_with_yake (src/ai/keyword_extractor.py): run
the yake scorer with the given or default ngram size, requesting twice the
target count of candidates, clean them, and truncate to the target count.
The default max_ngram_size of the constructor is 2. -/
def extractWithYake (yakeO : YakeOracle) (count : Nat) (ngramOverride : Option Nat) :
    List String :=
  let n := ngramOverride.getD 2
  let candidates := yakeO n (count * 2)
  (cleanKeywords candidates).take count

/-- KeywordExtractor.extract (src/ai/keyword_extractor.py): clamp the target
count into [MIN_KEYWORDS, MAX_KEYWORDS]; text empty or under 10 stripped
characters is an empty-document failure; run the yake pass, escalate once to
ngram size 3 when fewer than MIN_KEYWORDS phrases survive, truncate to
MAX_KEYWORDS, and return success with count equal to the list length.  The
detected argument stands for the language detector consulted when no
language is passed. -/
def extract (yakeO : YakeOracle) (detected : String) (text : String)
    (countArg : Option Nat) (languageArg : Option String) : KeywordsResult :=
  let count := countArg.getD MAX_KEYWORDS
  let count := max MIN_KEYWORDS (min count MAX_KEYWORDS)
  if text = "" ∨ (trimStr text).length < 10 then
    ⟨[], "", 0, false, "yake", some "Text is too short for keyword extraction",
      some ErrorScenario.EMPTY_DOCUMENT⟩
  else
    let _language := languageArg.getD detected
    let keywords := extractWithYake yakeO count none
    let keywords :=
      if keywords.length < MIN_KEYWORDS then extractWithYake yakeO count (some 3)
      else keywords
    let keywords := keywords.take MAX_KEYWORDS
    ⟨keywords, joinWith ", " keywords, keywords.length, true, "yake", none, none⟩

/-- TXTParser.parse (src/parsers/txt_parser.py) on content the utf-8 read
decoded successfully (each successful fallback-encoding branch builds the
same result from its decoded text): zero decoded characters is an
empty-document failure, anything else parses successfully with the text
preserved and char_count equal to its length. -/
def parseTxtText (text : String) : ParseResult :=
  if text.length = 0 then
    ⟨"", 0, false, ExtractionMethod.PLAIN_READ, some "Document is empty",
      some ErrorScenario.EMPTY_DOCUMENT, false, none⟩
  else
    ⟨text, text.length, true, ExtractionMethod.PLAIN_READ, none, none, false, none⟩

/-- DocumentProcessor._create_failed_result (src/processor.py): the stage
results not yet produced are synthesized as empty/default objects carrying
the terminating scenario; the synthesized summary language falls back from
the metadata to "en". -/
def createFailedResult (meta : Metadata) (parseRes : Option ParseResult)
    (summaryRes : Option SummaryResult) (kwRes : Option KeywordsResult)
    (processing_time : ℚ) (scenario : Option ErrorScenario) : ProcessingResult :=
  let pr := parseRes.getD
    ⟨"", 0, false, ExtractionMethod.PLAIN_READ, none, scenario, false, none⟩
  let sr := summaryRes.getD
    ⟨"", 0, meta.language.getD "en", false, AIModel.OPENAI_GPT4, none, none, scenario⟩
  let kr := kwRes.getD ⟨[], "", 0, false, "yake", none, scenario⟩
  ⟨meta, pr, sr, kr, ProcessingStatus.FAILED, processing_time, scenario⟩

/-- DocumentProcessor.process_document (src/processor.py) after the parse
stage produced parseRes: on parse failure a failed aggregate is built at
once; otherwise the language is detected and attached to the metadata, the
summarization stage runs and short-circuits on failure, the keyword stage
runs and short-circuits on failure, else a completed aggregate is built.
The three stage collaborators are explicit arguments; elapsed is the
wall-clock processing time. -/
def processDocument (detect : String → String)
    (summarizeStage : String → String → SummaryResult)
    (keywordsStage : String → String → KeywordsResult)
    (meta : Metadata) (parseRes : ParseResult) (elapsed : ℚ) : ProcessingResult :=
  if parseRes.success = false then
    createFailedResult meta (some parseRes) none none elapsed parseRes.error_scenario
  else
    let language := detect parseRes.text
    let meta2 := { meta with language := some language }
    let summaryRes := summarizeStage parseRes.text language
    if summaryRes.success = false then
      createFailedResult meta2 (some parseRes) (some summaryRes) none elapsed
        summaryRes.error_scenario
    else
      let kwRes := keywordsStage parseRes.text language
      if kwRes.success = false then
        createFailedResult meta2 (some parseRes) (some summaryRes) (some kwRes)
          elapsed kwRes.error_scenario
      else
        ⟨meta2, parseRes, summaryRes, kwRes, ProcessingStatus.COMPLETED, elapsed, none⟩

/-- DocumentProcessor._summarize_with_retry (src/processor.py): the
summarize call is wrapped by RetryHandler.execute_with_retry with every
exception retryable; summarize returns a result object instead of raising,
so the wrapped operation always succeeds on its first attempt.  The except
branch of the Python source (reached only if execute_with_retry re-raised)
builds a generic API-error failure.  Returned alongside the SummaryResult is
the number of calls made to the generation capability. -/
def summarizeWithRetry (c : RetryConfig) (jf : Nat → ℚ) (model : String)
    (gen : GenOracle) (text language : String) : SummaryResult × Nat :=
  let op : Nat → Except String SummarizeTrace :=
    fun _ => Except.ok (summarize model gen text language)
  let out := execute_with_retry c jf op
  match out.result with
  | Except.ok tr => (tr.result, tr.api_calls)
  | Except.error e =>
    (⟨"", 0, language, false, AIModel.OPENAI_GPT4, none, some e,
        some ErrorScenario.API_ERROR⟩, 0)

/-- DocumentProcessor.create_sheets_row (src/processor.py): the flat
16-field persistence row; the error-message field reads only
summary_result.error_message, defaulting to the empty string. -/
def createSheetsRow (result : ProcessingResult) : GoogleSheetsRow :=
  ⟨result.metadata.timestamp,
    toString result.metadata.uploader_id,
    result.metadata.uploader_username.getD "",
    result.metadata.file_name,
    fileTypeValue result.metadata.file_type,
    result.metadata.file_size,
    result.parse_result.char_count,
    result.metadata.language.getD "",
    result.summary_result.summary,
    result.keywords_result.formatted,
    statusValue result.status,
    result.summary_result.error_message.getD "",
    aiModelValue result.summary_result.ai_model_used,
    extractionMethodValue result.parse_result.extraction_method,
    result.parse_result.used_ocr,
    result.processing_time⟩

/-- A 100-character text, the smallest length at which generation is not
skipped under the default minimum-length threshold. -/
def t100 : String := String.mk (List.replicate 100 'a')

/-- A generation oracle whose first reply has one sentence (forcing the
corrective call) and whose second reply has one sentence again. -/
def g5w : GenOracle :=
  fun i => if i = 0 then Except.ok ("Bad", 5) else Except.ok ("Nice.", 7)

/-- The generation capability of the spec's retry scenario: it raises
"rate limit exceeded" on its first two calls and succeeds on the third. -/
def rateGen : GenOracle :=
  fun i =>
    if i < 2 then Except.error "rate limit exceeded"
    else Except.ok ("One. Two. Three.", 10)

lemma isPrefixOf_append_self (l t : List Char) : l.isPrefixOf (l ++ t) = true := by
  induction l with
  | nil => simp [List.isPrefixOf]
  | cons a as ih => simp [List.isPrefixOf, ih]

lemma containsSubAux_of_isPrefixOf (pat l : List Char)
    (h : pat.isPrefixOf l = true) : containsSubAux pat l = true := by
  cases l with
  | nil =>
    cases pat with
    | nil => rfl
    | cons p ps => simp [List.isPrefixOf] at h
  | cons c rest => simp [containsSubAux, h]

lemma strContainsSub_append_left (p s : String) : strContainsSub (p ++ s) p = true := by
  unfold strContainsSub
  have hd : (p ++ s).data = p.data ++ s.data := by
    cases p
    cases s
    rfl
  rw [hd]
  exact containsSubAux_of_isPrefixOf _ _ (isPrefixOf_append_self _ _)

lemma retryGo_ok {E A : Type} (c : RetryConfig) (jf : Nat → ℚ) (nf : Nat)
    (errs : Nat → E) (v : A) :
    ∀ r attempt, attempt ≤ nf → nf ≤ attempt + r →
      (retryGo c jf (mkFailingOp nf errs v) attempt r).result = Except.ok v ∧
      (retryGo c jf (mkFailingOp nf errs v) attempt r).calls = nf + 1 := by
  intro r
  induction r with
  | zero =>
    intro attempt h1 h2
    have ha : attempt = nf := by omega
    subst ha
    simp [retryGo, mkFailingOp]
  | succ r ih =>
    intro attempt h1 h2
    by_cases hc : attempt < nf
    · have hrec := ih (attempt + 1) (by omega) (by omega)
      simp only [retryGo, mkFailingOp, if_pos hc]
      exact hrec
    · have ha : attempt = nf := by omega
      subst ha
      simp [retryGo, mkFailingOp]

lemma retryGo_err {E A : Type} (c : RetryConfig) (jf : Nat → ℚ) (nf : Nat)
    (errs : Nat → E) (v : A) :
    ∀ r attempt, attempt + r < nf →
      (retryGo c jf (mkFailingOp nf errs v) attempt r).result
        = Except.error (errs (attempt + r)) ∧
      (retryGo c jf (mkFailingOp nf errs v) attempt r).calls = attempt + r + 1 := by
  intro r
  induction r with
  | zero =>
    intro attempt h
    simp only [Nat.add_zero] at h ⊢
    simp [retryGo, mkFailingOp, if_pos h]
  | succ r ih =>
    intro attempt h
    have hc : attempt < nf := by omega
    have hrec := ih (attempt + 1) (by omega)
    have he : attempt + 1 + r = attempt + (r + 1) := by omega
    rw [he] at hrec
    simp only [retryGo, mkFailingOp, if_pos hc]
    exact hrec

/-- C1: with num_failures ≤ max_retries the wrapper calls the operation
exactly num_failures + 1 times and returns the eventual success value; with
num_failures > max_retries it re-raises the error of the last attempt (the
one of zero-based call max_retries) after exactly max_retries + 1 calls. -/
theorem c1_execute_with_retry {E A : Type} (c : RetryConfig) (jf : Nat → ℚ)
    (numFailures : Nat) (errs : Nat → E) (v : A) :
    (numFailures ≤ c.max_retries →
      (execute_with_retry c jf (mkFailingOp numFailures errs v)).result
        = Except.ok v ∧
      (execute_with_retry c jf (mkFailingOp numFailures errs v)).calls
        = numFailures + 1) ∧
    (c.max_retries < numFailures →
      (execute_with_retry c jf (mkFailingOp numFailures errs v)).result
        = Except.error (errs c.max_retries) ∧
      (execute_with_retry c jf (mkFailingOp numFailures errs v)).calls
        = c.max_retries + 1) := by
  constructor
  · intro h
    exact retryGo_ok c jf numFailures errs v c.max_retries 0 (Nat.zero_le _) (by omega)
  · intro h
    have hres := retryGo_err c jf numFailures errs v c.max_retries 0 (by omega)
    simpa [execute_with_retry] using hres

/-- C1 witness: with max_retries = 2, one failure then success returns the
value after 2 calls, and five failures re-raise the error of call index 2
after 3 calls. -/
theorem c1_execute_with_retry_witness :
    ((execute_with_retry ⟨2, 1, 30, 2, false⟩ (fun _ => 1)
        (mkFailingOp 1 (fun i => i) 42)).result = Except.ok 42 ∧
      (execute_with_retry ⟨2, 1, 30, 2, false⟩ (fun _ => 1)
        (mkFailingOp 1 (fun i => i) 42)).calls = 2) ∧
    ((execute_with_retry ⟨2, 1, 30, 2, false⟩ (fun _ => 1)
        (mkFailingOp 5 (fun i => i) 42)).result = Except.error 2 ∧
      (execute_with_retry ⟨2, 1, 30, 2, false⟩ (fun _ => 1)
        (mkFailingOp 5 (fun i => i) 42)).calls = 3) :=
  ⟨(c1_execute_with_retry ⟨2, 1, 30, 2, false⟩ (fun _ => 1) 1 (fun i => i) 42).1
      (by decide),
    (c1_execute_with_retry ⟨2, 1, 30, 2, false⟩ (fun _ => 1) 5 (fun i => i) 42).2
      (by decide)⟩

lemma retryGo_delays {E A : Type} (c : RetryConfig) (jf : Nat → ℚ)
    (op : Nat → Except E A) :
    ∀ r attempt k x, ((retryGo c jf op attempt r).delays)[k]? = some x →
      x = c.get_delay (attempt + k) (jf (attempt + k)) := by
  intro r
  induction r with
  | zero =>
    intro attempt k x h
    cases hop : op attempt <;> simp [retryGo, hop] at h
  | succ r ih =>
    intro attempt k x h
    cases hop : op attempt with
    | ok v => simp [retryGo, hop] at h
    | error e =>
      simp only [retryGo, hop] at h
      cases k with
      | zero =>
        simp only [List.getElem?_cons_zero, Option.some.injEq] at h
        rw [← h]
        simp
      | succ k =>
        simp only [List.getElem?_cons_succ] at h
        have hrec := ih (attempt + 1) k x h
        have he : attempt + 1 + k = attempt + (k + 1) := by omega
        rw [he] at hrec
        exact hrec

/-- C8: with jitter disabled, the delay slept after the zero-based failed
attempt a (the element of index a of the recorded delay sequence) equals
min(base_delay * exponential_base^a, max_delay) exactly, qmin being the
embedding of the Python two-argument min builtin and agreeing with the
mathematical min. -/
theorem c8_backoff_delay {E A : Type} (c : RetryConfig) (jf : Nat → ℚ)
    (op : Nat → Except E A) (hj : c.jitter = false) (a : Nat) (x : ℚ)
    (h : ((execute_with_retry c jf op).delays)[a]? = some x) :
    x = qmin (c.base_delay * c.exponential_base ^ a) c.max_delay ∧
    qmin (c.base_delay * c.exponential_base ^ a) c.max_delay
      = min (c.base_delay * c.exponential_base ^ a) c.max_delay := by
  constructor
  · have hrec := retryGo_delays c jf op c.max_retries 0 a x
      (by simpa [execute_with_retry] using h)
    simpa [RetryConfig.get_delay, hj] using hrec
  · simp [qmin, min_def]

/-- C8 witness: for base_delay 1, exponential_base 2, max_delay 30 and an
always-failing operation, the delay recorded after attempt 0 is 1 = min(1 *
2^0, 30). -/
theorem c8_backoff_delay_witness :
    (1 : ℚ) = qmin ((1 : ℚ) * 2 ^ 0) 30 ∧
    qmin ((1 : ℚ) * 2 ^ 0) 30 = min ((1 : ℚ) * 2 ^ 0) 30 :=
  c8_backoff_delay (⟨2, 1, 30, 2, false⟩ : RetryConfig) (fun _ => 1)
    (fun _ => (Except.error "e" : Except String Nat)) rfl 0 1
    (by norm_num [execute_with_retry, retryGo, RetryConfig.get_delay, qmin])

/-- C2: when the parse stage fails, the orchestrator returns a FAILED
aggregate whose error_scenario equals the parse result's scenario, whose
summary and keywords results are synthesized empty/default objects carrying
that same scenario, and whose value does not depend on the language
detector, summarization or keyword collaborators: no later stage runs. -/
theorem c2_parse_failure_short_circuits
    (detect detect2 : String → String)
    (sF sF2 : String → String → SummaryResult)
    (kF kF2 : String → String → KeywordsResult)
    (meta : Metadata) (parseRes : ParseResult) (elapsed : ℚ)
    (h : parseRes.success = false) :
    (processDocument detect sF kF meta parseRes elapsed).status
      = ProcessingStatus.FAILED ∧
    (processDocument detect sF kF meta parseRes elapsed).error_scenario
      = parseRes.error_scenario ∧
    (processDocument detect sF kF meta parseRes elapsed).parse_result = parseRes ∧
    (processDocument detect sF kF meta parseRes elapsed).summary_result
      = ⟨"", 0, meta.language.getD "en", false, AIModel.OPENAI_GPT4, none, none,
          parseRes.error_scenario⟩ ∧
    (processDocument detect sF kF meta parseRes elapsed).keywords_result
      = ⟨[], "", 0, false, "yake", none, parseRes.error_scenario⟩ ∧
    processDocument detect sF kF meta parseRes elapsed
      = processDocument detect2 sF2 kF2 meta parseRes elapsed := by
  simp [processDocument, h, createFailedResult]

/-- C2 witness: a concrete empty-document parse failure short-circuits the
pipeline with the scenario propagated into the synthesized results. -/
theorem c2_parse_failure_short_circuits_witness :
    (processDocument (fun _ => "ru") (fun _ _ => ⟨"s", 3, "ru", true,
        AIModel.OPENAI_GPT4, some 5, none, none⟩)
      (fun _ _ => ⟨["k"], "k", 1, true, "yake", none, none⟩)
      ⟨"doc.txt", 12, FileType.TXT, 7, "2024-01-01T00:00:00", none, none, none, none⟩
      ⟨"", 0, false, ExtractionMethod.PLAIN_READ, some "Document is empty",
        some ErrorScenario.EMPTY_DOCUMENT, false, none⟩ 0).status
      = ProcessingStatus.FAILED ∧
    (processDocument (fun _ => "ru") (fun _ _ => ⟨"s", 3, "ru", true,
        AIModel.OPENAI_GPT4, some 5, none, none⟩)
      (fun _ _ => ⟨["k"], "k", 1, true, "yake", none, none⟩)
      ⟨"doc.txt", 12, FileType.TXT, 7, "2024-01-01T00:00:00", none, none, none, none⟩
      ⟨"", 0, false, ExtractionMethod.PLAIN_READ, some "Document is empty",
        some ErrorScenario.EMPTY_DOCUMENT, false, none⟩ 0).error_scenario
      = some ErrorScenario.EMPTY_DOCUMENT :=
  have hthm := c2_parse_failure_short_circuits
    (fun _ => "ru") (fun _ => "en")
    (fun _ _ => ⟨"s", 3, "ru", true, AIModel.OPENAI_GPT4, some 5, none, none⟩)
    (fun _ _ => ⟨"", 0, "en", false, AIModel.OPENAI_GPT4, none, none, none⟩)
    (fun _ _ => ⟨["k"], "k", 1, true, "yake", none, none⟩)
    (fun _ _ => ⟨[], "", 0, false, "yake", none, none⟩)
    ⟨"doc.txt", 12, FileType.TXT, 7, "2024-01-01T00:00:00", none, none, none, none⟩
    ⟨"", 0, false, ExtractionMethod.PLAIN_READ, some "Document is empty",
      some ErrorScenario.EMPTY_DOCUMENT, false, none⟩ 0 rfl
  ⟨hthm.1, hthm.2.1⟩

/-- C3 counterexample: for a 100-character input (at the threshold) and a
generation capability whose replies always have one sentence, summarize
returns success with sentence_count 1, outside the claimed bounds [3,7]. -/
theorem c3_sentence_bounds_counterexample :
    MIN_TEXT_FOR_SUMMARY ≤ t100.length ∧
    (summarize "gpt-4" (fun _ => Except.ok ("Bad", 5)) t100 "en").result.success
      = true ∧
    (summarize "gpt-4" (fun _ => Except.ok ("Bad", 5)) t100 "en").result.sentence_count
      < MIN_SENTENCES := by
  decide

/-- C3 amended: for inputs at or above the minimum threshold, a successful
summarize result reports the sentence count of the reply it returns, and the
bounds [MIN_SENTENCES, MAX_SENTENCES] are guaranteed only when the first
reply was accepted without a corrective call (api_calls = 1); after the
single corrective call the recomputed count is returned even when it is
still out of bounds. -/
theorem c3_sentence_bounds_amended (model : String) (gen : GenOracle)
    (text language : String)
    (hlen : MIN_TEXT_FOR_SUMMARY ≤ text.length)
    (hs : (summarize model gen text language).result.success = true) :
    (summarize model gen text language).result.sentence_count
      = countSentences (summarize model gen text language).result.summary ∧
    ((summarize model gen text language).api_calls = 1 →
      MIN_SENTENCES ≤ (summarize model gen text language).result.sentence_count ∧
      (summarize model gen text language).result.sentence_count ≤ MAX_SENTENCES) := by
  have hnl : ¬ (text.length < MIN_TEXT_FOR_SUMMARY) := by omega
  cases hg0 : gen 0 with
  | error e => simp [summarize, hg0, hnl] at hs
  | ok p =>
    obtain ⟨s1, t1⟩ := p
    by_cases hb : countSentences s1 < MIN_SENTENCES ∨ countSentences s1 > MAX_SENTENCES
    · cases hg1 : gen 1 with
      | error e => simp [summarize, hg0, hg1, hnl, hb] at hs
      | ok q =>
        obtain ⟨s2, t2⟩ := q
        constructor
        · simp [summarize, hg0, hg1, hnl, hb]
        · intro hc
          simp [summarize, hg0, hg1, hnl, hb] at hc
    · have hb2 := hb
      push_neg at hb2
      refine ⟨?_, fun _ => ⟨?_, ?_⟩⟩
      · simp [summarize, hg0, hnl, hb]
      · simpa [summarize, hg0, hnl, hb] using hb2.1
      · simpa [summarize, hg0, hnl, hb] using hb2.2

/-- C3 witness for the amended statement: an in-bounds first reply is
accepted with its own sentence count. -/
theorem c3_sentence_bounds_amended_witness :
    (summarize "gpt-4" (fun _ => Except.ok ("One. Two. Three.", 9)) t100
        "en").result.sentence_count
      = countSentences (summarize "gpt-4" (fun _ => Except.ok ("One. Two. Three.", 9))
          t100 "en").result.summary ∧
    ((summarize "gpt-4" (fun _ => Except.ok ("One. Two. Three.", 9)) t100
        "en").api_calls = 1 →
      MIN_SENTENCES ≤ (summarize "gpt-4" (fun _ => Except.ok ("One. Two. Three.", 9))
          t100 "en").result.sentence_count ∧
      (summarize "gpt-4" (fun _ => Except.ok ("One. Two. Three.", 9)) t100
          "en").result.sentence_count ≤ MAX_SENTENCES) :=
  c3_sentence_bounds_amended "gpt-4" (fun _ => Except.ok ("One. Two. Three.", 9))
    t100 "en" (by decide) (by decide)

/-- C4 counterexample: when the first yake pass yields nothing and the
escalated ngram-3 pass yields a single two-character phrase, extract returns
success with count 1, below the claimed lower bound of 5. -/
theorem c4_keyword_bounds_counterexample :
    (extract (fun n _ => if n = 3 then ["ab"] else []) "en" "abcdefghijk" none
        (some "en")).success = true ∧
    (extract (fun n _ => if n = 3 then ["ab"] else []) "en" "abcdefghijk" none
        (some "en")).count = 1 ∧
    (extract (fun n _ => if n = 3 then ["ab"] else []) "en" "abcdefghijk" none
        (some "en")).count < MIN_KEYWORDS := by
  decide

/-- C4 amended: every successful extract result has count equal to the
length of its keyword list and count at most MAX_KEYWORDS; the lower bound
MIN_KEYWORDS is not enforced, since the escalated second yake pass's output
is returned as-is even when fewer than MIN_KEYWORDS phrases survive. -/
theorem c4_keyword_bounds_amended (yakeO : YakeOracle) (detected text : String)
    (countArg : Option Nat) (languageArg : Option String)
    (hs : (extract yakeO detected text countArg languageArg).success = true) :
    (extract yakeO detected text countArg languageArg).count
      = (extract yakeO detected text countArg languageArg).keywords.length ∧
    (extract yakeO detected text countArg languageArg).count ≤ MAX_KEYWORDS := by
  by_cases hc : text = "" ∨ (trimStr text).length < 10
  · simp [extract, hc] at hs
  · constructor
    · simp [extract, hc]
    · simp only [extract, if_neg hc]
      simp [List.length_take_le MAX_KEYWORDS _]

/-- C4 witness for the amended statement: six clean candidate phrases give a
successful result with count 6 equal to its list length and within the upper
bound. -/
theorem c4_keyword_bounds_amended_witness :
    (extract (fun _ _ => ["alpha", "beta", "gamma", "delta", "epsilon", "zeta"])
        "en" "abcdefghijk" none (some "en")).count
      = (extract (fun _ _ => ["alpha", "beta", "gamma", "delta", "epsilon", "zeta"])
          "en" "abcdefghijk" none (some "en")).keywords.length ∧
    (extract (fun _ _ => ["alpha", "beta", "gamma", "delta", "epsilon", "zeta"])
        "en" "abcdefghijk" none (some "en")).count ≤ MAX_KEYWORDS :=
  c4_keyword_bounds_amended
    (fun _ _ => ["alpha", "beta", "gamma", "delta", "epsilon", "zeta"])
    "en" "abcdefghijk" none (some "en") (by decide)

/-- C5: when the first generation reply's sentence count falls outside
[MIN_SENTENCES, MAX_SENTENCES], summarize makes exactly one corrective call;
the two prompts sent are the initial prompt and the corrective prompt, the
corrective prompt demands exactly the nearer bound (MIN_SENTENCES when the
count was below it, MAX_SENTENCES when above), the returned summary is the
second reply with its recomputed sentence count and no further correction
rounds, and tokens_used is the sum of both calls' token usage. -/
theorem c5_correction_loop (model : String) (gen : GenOracle)
    (text language s1 : String) (t1 : Nat) (s2 : String) (t2 : Nat)
    (hlen : MIN_TEXT_FOR_SUMMARY ≤ text.length)
    (hg0 : gen 0 = Except.ok (s1, t1))
    (hout : countSentences s1 < MIN_SENTENCES ∨ countSentences s1 > MAX_SENTENCES)
    (hg1 : gen 1 = Except.ok (s2, t2)) :
    (summarize model gen text language).api_calls = 2 ∧
    (summarize model gen text language).prompts
      = [buildPrompt text language, adjustPrompt text language (countSentences s1)] ∧
    (countSentences s1 < MIN_SENTENCES →
      strContainsSub (adjustPrompt text language (countSentences s1))
        ("Создай резюме ровно из " ++ toString MIN_SENTENCES ++ " предложений")
        = true) ∧
    (countSentences s1 > MAX_SENTENCES →
      strContainsSub (adjustPrompt text language (countSentences s1))
        ("Создай резюме ровно из " ++ toString MAX_SENTENCES ++ " предложений")
        = true) ∧
    (summarize model gen text language).result.success = true ∧
    (summarize model gen text language).result.summary = s2 ∧
    (summarize model gen text language).result.sentence_count = countSentences s2 ∧
    (summarize model gen text language).result.tokens_used = some (t1 + t2) := by
  have hnl : ¬ (text.length < MIN_TEXT_FOR_SUMMARY) := by omega
  refine ⟨?_, ?_, ?_, ?_, ?_, ?_, ?_, ?_⟩
  · simp [summarize, hg0, hg1, hnl, hout]
  · simp [summarize, hg0, hg1, hnl, hout]
  · intro hlt
    unfold adjustPrompt
    rw [if_pos hlt]
    exact strContainsSub_append_left _ _
  · intro hgt
    have hge : ¬ (countSentences s1 < MIN_SENTENCES) := by
      unfold MIN_SENTENCES MAX_SENTENCES at *
      omega
    unfold adjustPrompt
    rw [if_neg hge]
    exact strContainsSub_append_left _ _
  · simp [summarize, hg0, hg1, hnl, hout]
  · simp [summarize, hg0, hg1, hnl, hout]
  · simp [summarize, hg0, hg1, hnl, hout]
  · simp [summarize, hg0, hg1, hnl, hout]

/-- C5 witness: a one-sentence first reply triggers exactly one corrective
call demanding 3 sentences, and the second reply is returned with its own
count and the summed token usage. -/
theorem c5_correction_loop_witness :
    (summarize "gpt-4" g5w t100 "en").api_calls = 2 ∧
    (summarize "gpt-4" g5w t100 "en").prompts
      = [buildPrompt t100 "en", adjustPrompt t100 "en" (countSentences "Bad")] ∧
    (countSentences "Bad" < MIN_SENTENCES →
      strContainsSub (adjustPrompt t100 "en" (countSentences "Bad"))
        ("Создай резюме ровно из " ++ toString MIN_SENTENCES ++ " предложений")
        = true) ∧
    (countSentences "Bad" > MAX_SENTENCES →
      strContainsSub (adjustPrompt t100 "en" (countSentences "Bad"))
        ("Создай резюме ровно из " ++ toString MAX_SENTENCES ++ " предложений")
        = true) ∧
    (summarize "gpt-4" g5w t100 "en").result.success = true ∧
    (summarize "gpt-4" g5w t100 "en").result.summary = "Nice." ∧
    (summarize "gpt-4" g5w t100 "en").result.sentence_count
      = countSentences "Nice." ∧
    (summarize "gpt-4" g5w t100 "en").result.tokens_used = some (5 + 7) :=
  c5_correction_loop "gpt-4" g5w t100 "en" "Bad" 5 "Nice." 7 (by decide) rfl
    (Or.inl (by decide)) rfl

/-- C6: for input text shorter than the minimum summarization threshold,
summarize makes no generation call and returns success with the original
text echoed verbatim as the summary, its computed sentence count, and zero
token usage. -/
theorem c6_short_input_echoed (model : String) (gen : GenOracle)
    (text language : String)
    (h : text.length < MIN_TEXT_FOR_SUMMARY) :
    (summarize model gen text language).api_calls = 0 ∧
    (summarize model gen text language).result.success = true ∧
    (summarize model gen text language).result.summary = text ∧
    (summarize model gen text language).result.sentence_count
      = countSentences text ∧
    (summarize model gen text language).result.tokens_used = some 0 := by
  simp [summarize, h]

/-- C6 witness: an 11-character input is echoed with no generation call. -/
theorem c6_short_input_echoed_witness :
    (summarize "gpt-4" g5w "Short. Txt." "en").api_calls = 0 ∧
    (summarize "gpt-4" g5w "Short. Txt." "en").result.success = true ∧
    (summarize "gpt-4" g5w "Short. Txt." "en").result.summary = "Short. Txt." ∧
    (summarize "gpt-4" g5w "Short. Txt." "en").result.sentence_count
      = countSentences "Short. Txt." ∧
    (summarize "gpt-4" g5w "Short. Txt." "en").result.tokens_used = some 0 :=
  c6_short_input_echoed "gpt-4" g5w "Short. Txt." "en" (by decide)

/-- C7: evaluation of the code at the claimed scenario.  With max_retries =
3 and a generation capability that raises "rate limit exceeded" on its first
two calls and succeeds on the third, the retry-wrapped summarization stage
makes exactly ONE call to the capability and returns a failed SummaryResult
carrying API_RATE_LIMIT: summarize catches the exception internally and
returns a result object instead of raising, so execute_with_retry never
observes an exception and never retries, contradicting the claimed success
after exactly 3 calls. -/
theorem c7_rate_limit_not_retried :
    (summarizeWithRetry ⟨3, 1, 30, 2, false⟩ (fun _ => 1) "gpt-4" rateGen t100
        "en").1.success = false ∧
    (summarizeWithRetry ⟨3, 1, 30, 2, false⟩ (fun _ => 1) "gpt-4" rateGen t100
        "en").1.error_scenario = some ErrorScenario.API_RATE_LIMIT ∧
    (summarizeWithRetry ⟨3, 1, 30, 2, false⟩ (fun _ => 1) "gpt-4" rateGen t100
        "en").2 = 1 := by
  decide

/-- C9 counterexample: a 5-character decoded plain-text content parses
successfully, not as an EMPTY_DOCUMENT failure. -/
theorem c9_five_char_counterexample :
    "hello".length = 5 ∧
    (parseTxtText "hello").success = true ∧
    (parseTxtText "hello").error_scenario ≠ some ErrorScenario.EMPTY_DOCUMENT := by
  decide

/-- C9 amended: a plain-text file whose decoded content has exactly 5
characters parses successfully with the text preserved, char_count 5 and no
error scenario; the EMPTY_DOCUMENT failure arises exactly for zero-length
decoded content. -/
theorem c9_txt_parse_amended :
    (∀ text : String, text.length = 5 →
      (parseTxtText text).success = true ∧
      (parseTxtText text).text = text ∧
      (parseTxtText text).char_count = 5 ∧
      (parseTxtText text).error_scenario = none) ∧
    (∀ text : String, text.length = 0 →
      (parseTxtText text).success = false ∧
      (parseTxtText text).error_scenario = some ErrorScenario.EMPTY_DOCUMENT) := by
  constructor
  · intro text h
    have hz : ¬ (text.length = 0) := by omega
    simp [parseTxtText, hz, h]
  · intro text h
    simp [parseTxtText, h]

/-- C9 witness: the two branches of the amended statement at "hello" and at
the empty string. -/
theorem c9_txt_parse_amended_witness :
    ((parseTxtText "hello").success = true ∧
      (parseTxtText "hello").text = "hello" ∧
      (parseTxtText "hello").char_count = 5 ∧
      (parseTxtText "hello").error_scenario = none) ∧
    ((parseTxtText "").success = false ∧
      (parseTxtText "").error_scenario = some ErrorScenario.EMPTY_DOCUMENT) :=
  ⟨c9_txt_parse_amended.1 "hello" (by decide),
    c9_txt_parse_amended.2 "" (by decide)⟩

/-- C10: the persistence row's error-message field reads only the
summarization result: whenever summary_result carries no error message the
row's error_message is the empty string; in particular a parse-stage failure
whose ParseResult carries a non-empty message, and a keyword-stage failure
whose KeywordsResult carries a non-empty message while the summary result
carries none, both produce a row with empty error_message. -/
theorem c10_row_error_only_from_summary :
    (∀ r : ProcessingResult, r.summary_result.error_message = none →
      (createSheetsRow r).error_message = "") ∧
    (∀ (detect : String → String) (sF : String → String → SummaryResult)
        (kF : String → String → KeywordsResult) (meta : Metadata)
        (parseRes : ParseResult) (elapsed : ℚ) (msg : String),
      parseRes.success = false → parseRes.error_message = some msg →
      (createSheetsRow (processDocument detect sF kF meta parseRes
          elapsed)).error_message = "") ∧
    (∀ (meta : Metadata) (parseRes : ParseResult) (summaryRes : SummaryResult)
        (kwRes : KeywordsResult) (elapsed : ℚ) (msg : String),
      summaryRes.error_message = none → kwRes.error_message = some msg →
      (createSheetsRow (createFailedResult meta (some parseRes) (some summaryRes)
          (some kwRes) elapsed kwRes.error_scenario)).error_message = "") := by
  refine ⟨?_, ?_, ?_⟩
  · intro r h
    simp [createSheetsRow, h]
  · intro detect sF kF meta parseRes elapsed msg hfail hmsg
    simp [createSheetsRow, processDocument, hfail, createFailedResult]
  · intro meta parseRes summaryRes kwRes elapsed msg hnone hmsg
    simp [createSheetsRow, createFailedResult, hnone]

/-- C10 witness: the three components at concrete failed pipeline runs. -/
theorem c10_row_error_only_from_summary_witness :
    (createSheetsRow ⟨⟨"a.txt", 1, FileType.TXT, 2, "t", none, none, none, none⟩,
        ⟨"", 0, false, ExtractionMethod.PLAIN_READ, some "boom",
          some ErrorScenario.CORRUPTED_FILE, false, none⟩,
        ⟨"", 0, "en", false, AIModel.OPENAI_GPT4, none, none,
          some ErrorScenario.CORRUPTED_FILE⟩,
        ⟨[], "", 0, false, "yake", none, some ErrorScenario.CORRUPTED_FILE⟩,
        ProcessingStatus.FAILED, 0,
        some ErrorScenario.CORRUPTED_FILE⟩).error_message = "" ∧
    (createSheetsRow (processDocument (fun _ => "en")
        (fun _ _ => ⟨"s", 3, "en", true, AIModel.OPENAI_GPT4, some 1, none, none⟩)
        (fun _ _ => ⟨["k"], "k", 1, true, "yake", none, none⟩)
        ⟨"a.txt", 1, FileType.TXT, 2, "t", none, none, none, none⟩
        ⟨"", 0, false, ExtractionMethod.PLAIN_READ, some "boom",
          some ErrorScenario.CORRUPTED_FILE, false, none⟩ 0)).error_message = "" ∧
    (createSheetsRow (createFailedResult
        ⟨"a.txt", 1, FileType.TXT, 2, "t", none, none, none, none⟩
        (some ⟨"text ok", 7, true, ExtractionMethod.PLAIN_READ, none, none,
          false, none⟩)
        (some ⟨"s", 3, "en", true, AIModel.OPENAI_GPT4, some 1, none, none⟩)
        (some ⟨[], "", 0, false, "yake", some "kw boom",
          some ErrorScenario.API_ERROR⟩)
        0 (some ErrorScenario.API_ERROR))).error_message = "" :=
  ⟨c10_row_error_only_from_summary.1
      ⟨⟨"a.txt", 1, FileType.TXT, 2, "t", none, none, none, none⟩,
        ⟨"", 0, false, ExtractionMethod.PLAIN_READ, some "boom",
          some ErrorScenario.CORRUPTED_FILE, false, none⟩,
        ⟨"", 0, "en", false, AIModel.OPENAI_GPT4, none, none,
          some ErrorScenario.CORRUPTED_FILE⟩,
        ⟨[], "", 0, false, "yake", none, some ErrorScenario.CORRUPTED_FILE⟩,
        ProcessingStatus.FAILED, 0, some ErrorScenario.CORRUPTED_FILE⟩ rfl,
    c10_row_error_only_from_summary.2.1 (fun _ => "en")
      (fun _ _ => ⟨"s", 3, "en", true, AIModel.OPENAI_GPT4, some 1, none, none⟩)
      (fun _ _ => ⟨["k"], "k", 1, true, "yake", none, none⟩)
      ⟨"a.txt", 1, FileType.TXT, 2, "t", none, none, none, none⟩
      ⟨"", 0, false, ExtractionMethod.PLAIN_READ, some "boom",
        some ErrorScenario.CORRUPTED_FILE, false, none⟩ 0 "boom" rfl rfl,
    c10_row_error_only_from_summary.2.2
      ⟨"a.txt", 1, FileType.TXT, 2, "t", none, none, none, none⟩
      ⟨"text ok", 7, true, ExtractionMethod.PLAIN_READ, none, none, false, none⟩
      ⟨"s", 3, "en", true, AIModel.OPENAI_GPT4, some 1, none, none⟩
      ⟨[], "", 0, false, "yake", some "kw boom", some ErrorScenario.API_ERROR⟩
      0 "kw boom" rfl rfl⟩
